import Mathlib

/-!
Verification of the SSG-vs-match-demand planner (`src/app.py`).

The core logic of the application is shallowly embedded here over exact
rational arithmetic:

* `expected_demand` embeds the Python function `expected_demand` (app.py,
  lines 72-84).  Python's falsy test `if not app:` on an
  `Optional[float]` is modelled by matching on `Option ℚ` and testing
  for `0`.  The Python dict literal is modelled as an association list
  in the source's key order.
* `compute_metrics` embeds the inline planner-tab calculations (app.py,
  lines 151-155), packaged as the `DerivedMetrics` record the
  specification describes.
* `pct` embeds the ratio helper `pct` (app.py, lines 415-419); the
  `try/except` wrapper can never fire over exact arithmetic because the
  division is guarded by the falsy test on the denominator.
* The pitch-drawing code (app.py, lines 240-372) is embedded as a list
  of `Shape` primitives (`generate_shapes`) plus the auto-layout of
  player markers (`gen_player_pts`, `team_a`, `team_b`,
  `player_labels`), in the source's drawing order.
-/

namespace SSG

/-- Dimension keys of the demand profile, in the source's order. -/
def demand_keys : List String := ["TD", "HSR", "SPRINT", "ACC", "DEC", "PL"]

/-- Embedding of `expected_demand` (app.py, lines 72-84).  `none` models
Python `None`; `some 0` is the other falsy input. -/
def expected_demand : Option ℚ → List (String × String)
  | none => demand_keys.map fun k => (k, "")
  | some a =>
    if a = 0 then demand_keys.map fun k => (k, "")
    else
      let small := a < 85
      let medium := 85 ≤ a ∧ a ≤ 120
      [ ("TD", if small ∨ medium then "MED" else "HIGH"),
        ("HSR", if small then "LOW" else if medium then "MED" else "HIGH"),
        ("SPRINT", if small then "LOW" else if medium then "MED" else "HIGH"),
        ("ACC", if small then "HIGH" else if medium then "MED" else "LOW"),
        ("DEC", if small then "HIGH" else if medium then "MED" else "LOW"),
        ("PL", if small then "HIGH" else if medium then "MED" else "LOW") ]

/-- Record of the derived planner metrics (spec §3, `DerivedMetrics`). -/
structure DerivedMetrics where
  area : ℚ
  app : ℚ
  total_work : ℚ
  total_rest : ℚ
  total_session : ℚ
deriving DecidableEq, Repr

/-- Embedding of the planner-tab calculations (app.py, lines 151-155).
`app = area / players if players else 0.0` becomes a zero test on the
player count. -/
def compute_metrics (length width players sets work rest : ℚ) : DerivedMetrics :=
  let area := length * width
  let app := if players = 0 then 0 else area / players
  let total_work := sets * work
  let total_rest := (sets * rest) / 60
  { area := area
    app := app
    total_work := total_work
    total_rest := total_rest
    total_session := total_work + total_rest }

/-- Embedding of `pct` (app.py, lines 415-419): `num / den if den else None`. -/
def pct (num den : ℚ) : Option ℚ :=
  if den = 0 then none else some (num / den)

/-- Geometric primitives emitted by the pitch-drawing code: matplotlib
`Rectangle((x, y), w, h)`, `ax.plot` line segments, `Circle`,
`ax.scatter` spots, and `Arc((cx, cy), w, h, angle, theta1, theta2)`. -/
inductive Shape where
  | rect (x y w h : ℚ)
  | line (x1 y1 x2 y2 : ℚ)
  | circle (cx cy r : ℚ)
  | spot (x y : ℚ)
  | arc (cx cy w h angle theta1 theta2 : ℚ)
deriving DecidableEq, Repr

/-- Clamped center-circle radius `cc_r = min(center_circle_r, length/3, width/3)`
(app.py, line 270). -/
def cc_r (length width : ℚ) : ℚ := min 9.15 (min (length / 3) (width / 3))

/-- Clamped penalty-box width `min(pen_width, width * 0.9)` (app.py, line 283). -/
def effective_pen_width (width : ℚ) : ℚ := min 40.32 (width * 0.9)

/-- Clamped six-yard-box width `min(goal_width, width * 0.6)` (app.py, line 284). -/
def effective_goal_width (width : ℚ) : ℚ := min 18.32 (width * 0.6)

/-- Lower y bound of the penalty boxes (app.py, line 285). -/
def pen_y0 (width : ℚ) : ℚ := (width - effective_pen_width width) / 2

/-- Lower y bound of the six-yard boxes (app.py, line 286). -/
def goal_y0 (width : ℚ) : ℚ := (width - effective_goal_width width) / 2

/-- Shapes emitted by the pitch-drawing code (app.py, lines 240-347), in the
source's drawing order: background rectangle, halfway line, center
circle and spot, two penalty boxes, two six-yard boxes, two penalty
spots, and the four corner arcs. -/
def generate_shapes (length width : ℚ) : List Shape :=
  let pen_depth : ℚ := 16.5
  let goal_depth : ℚ := 5.5
  let spot_dist : ℚ := 11
  let corner_r : ℚ := 1.0
  [ Shape.rect 0 0 length width,
    Shape.line (length / 2) 0 (length / 2) width,
    Shape.circle (length / 2) (width / 2) (cc_r length width),
    Shape.spot (length / 2) (width / 2),
    Shape.rect 0 (pen_y0 width) pen_depth (effective_pen_width width),
    Shape.rect (length - pen_depth) (pen_y0 width) pen_depth (effective_pen_width width),
    Shape.rect 0 (goal_y0 width) goal_depth (effective_goal_width width),
    Shape.rect (length - goal_depth) (goal_y0 width) goal_depth (effective_goal_width width),
    Shape.spot spot_dist (width / 2),
    Shape.spot (length - spot_dist) (width / 2),
    Shape.arc 0 0 (2 * corner_r) (2 * corner_r) 0 0 90,
    Shape.arc 0 width (2 * corner_r) (2 * corner_r) 0 0 90,
    Shape.arc length 0 (2 * corner_r) (2 * corner_r) 0 0 90,
    Shape.arc length width (2 * corner_r) (2 * corner_r) 0 0 90 ]

/-- Embedding of `np.linspace a b n`: `n` evenly spaced values from `a`
to `b` inclusive; `[a]` when `n = 1`, empty when `n = 0`. -/
def linspace (a b : ℚ) (n : ℕ) : List ℚ :=
  if n = 0 then []
  else if n = 1 then [a]
  else (List.range n).map fun i : ℕ => a + (b - a) * (i : ℚ) / ((n : ℚ) - 1)

/-- Markers per row, `min(6, max(2, int(np.ceil(n_players / 2))))`
(app.py, line 352); `⌈n/2⌉ = (n + 1) / 2` on naturals. -/
def per_row (n : ℕ) : ℕ := min 6 (max 2 ((n + 1) / 2))

/-- Number of rows, `int(np.ceil(n_players / per_row))` (app.py, line 353). -/
def rows (n : ℕ) : ℕ := (n + per_row n - 1) / per_row n

/-- Player marker positions (app.py, lines 350-356): guarded by
`n_players >= 1`, a row-major grid of `per_row` x-values by `rows`
y-values, truncated to the first `n_players` points. -/
def gen_player_pts (length width : ℚ) (players : ℤ) : List (ℚ × ℚ) :=
  if 1 ≤ players then
    let n := players.toNat
    let xs := linspace (length * 0.1) (length * 0.9) (per_row n)
    let ys := linspace (width * 0.2) (width * 0.8) (rows n)
    ((ys.flatMap fun y => xs.map fun x => (x, y)).take n)
  else []

/-- Team A markers, `pts[:half]` with `half = n_players // 2` (app.py,
lines 358-359). -/
def team_a (length width : ℚ) (players : ℤ) : List (ℚ × ℚ) :=
  (gen_player_pts length width players).take (players.toNat / 2)

/-- Team B markers, `pts[half:]` (app.py, line 360). -/
def team_b (length width : ℚ) (players : ℤ) : List (ℚ × ℚ) :=
  (gen_player_pts length width players).drop (players.toNat / 2)

/-- Marker labels, `enumerate(pts, start=1)` (app.py, line 362). -/
def player_labels (length width : ℚ) (players : ℤ) : List (ℕ × ℚ × ℚ) :=
  (gen_player_pts length width players).enumFrom 1

/-- Arc recognizer over the emitted shapes. -/
def is_arc : Shape → Bool
  | .arc _ _ _ _ _ _ _ => true
  | _ => false

/-- Recognizer for a penalty arc as the specification describes one: an
arc drawn from 310 to 50 degrees. -/
def is_penalty_arc : Shape → Bool
  | .arc _ _ _ _ _ t1 t2 => t1 == 310 && t2 == 50
  | _ => false

/-- Containment of a shape in the pitch rectangle `[0, l] × [0, w]`,
via the shape's bounding box. -/
def shape_in_bounds (l w : ℚ) : Shape → Bool
  | .rect x y bw bh => decide (0 ≤ x ∧ x + bw ≤ l ∧ 0 ≤ y ∧ y + bh ≤ w)
  | .line x1 y1 x2 y2 =>
      decide ((0 ≤ x1 ∧ x1 ≤ l ∧ 0 ≤ y1 ∧ y1 ≤ w) ∧ (0 ≤ x2 ∧ x2 ≤ l ∧ 0 ≤ y2 ∧ y2 ≤ w))
  | .circle cx cy r => decide (r ≤ cx ∧ cx + r ≤ l ∧ r ≤ cy ∧ cy + r ≤ w)
  | .spot x y => decide (0 ≤ x ∧ x ≤ l ∧ 0 ≤ y ∧ y ≤ w)
  | .arc cx cy aw ah _ _ _ =>
      decide (0 ≤ cx - aw / 2 ∧ cx + aw / 2 ≤ l ∧ 0 ≤ cy - ah / 2 ∧ cy + ah / 2 ≤ w)

/-- C1: `expected_demand` returns a mapping over exactly the six keys
TD, HSR, SPRINT, ACC, DEC, PL; falsy input (`None` or `0`) maps every
key to `""`; `0 < app < 85` gives MED/LOW/LOW/HIGH/HIGH/HIGH;
`85 ≤ app ≤ 120` gives MED everywhere; `app > 120` gives
HIGH/HIGH/HIGH/LOW/LOW/LOW. -/
theorem c1_expected_demand (app : Option ℚ) (a : ℚ) :
    (expected_demand app).map Prod.fst = demand_keys ∧
    expected_demand none = demand_keys.map (fun k => (k, "")) ∧
    expected_demand (some 0) = demand_keys.map (fun k => (k, "")) ∧
    (0 < a → a < 85 → expected_demand (some a) =
      [("TD", "MED"), ("HSR", "LOW"), ("SPRINT", "LOW"),
       ("ACC", "HIGH"), ("DEC", "HIGH"), ("PL", "HIGH")]) ∧
    (85 ≤ a → a ≤ 120 → expected_demand (some a) =
      [("TD", "MED"), ("HSR", "MED"), ("SPRINT", "MED"),
       ("ACC", "MED"), ("DEC", "MED"), ("PL", "MED")]) ∧
    (120 < a → expected_demand (some a) =
      [("TD", "HIGH"), ("HSR", "HIGH"), ("SPRINT", "HIGH"),
       ("ACC", "LOW"), ("DEC", "LOW"), ("PL", "LOW")]) := by
  refine ⟨?_, rfl, by simp [expected_demand], ?_, ?_, ?_⟩
  · cases app with
    | none => rfl
    | some a =>
      by_cases h : a = 0
      · simp [expected_demand, h, demand_keys]
      · simp only [expected_demand]
        rw [if_neg h]
        rfl
  · intro h0 h85
    have hne : a ≠ 0 := ne_of_gt h0
    have hm : ¬(85 ≤ a) := not_le.mpr h85
    simp [expected_demand, hne, h85, hm]
  · intro h1 h2
    have hne : a ≠ 0 := by intro h; rw [h] at h1; norm_num at h1
    have hs : ¬(a < 85) := not_lt.mpr h1
    simp [expected_demand, hne, hs, h1, h2]
  · intro h
    have hne : a ≠ 0 := ne_of_gt (by linarith)
    have hs : ¬(a < 85) := not_lt.mpr (by linarith)
    have hm : ¬(a ≤ 120) := not_le.mpr h
    simp [expected_demand, hne, hs, hm]

/-- Witness for C1: the three bands and the falsy case evaluated at
concrete inputs 50, 100 and 150. -/
theorem c1_expected_demand_witness :
    expected_demand (some 50) =
      [("TD", "MED"), ("HSR", "LOW"), ("SPRINT", "LOW"),
       ("ACC", "HIGH"), ("DEC", "HIGH"), ("PL", "HIGH")] ∧
    expected_demand (some 100) =
      [("TD", "MED"), ("HSR", "MED"), ("SPRINT", "MED"),
       ("ACC", "MED"), ("DEC", "MED"), ("PL", "MED")] ∧
    expected_demand (some 150) =
      [("TD", "HIGH"), ("HSR", "HIGH"), ("SPRINT", "HIGH"),
       ("ACC", "LOW"), ("DEC", "LOW"), ("PL", "LOW")] :=
  ⟨(c1_expected_demand (some 50) 50).2.2.2.1 (by norm_num) (by norm_num),
   (c1_expected_demand (some 100) 100).2.2.2.2.1 (by norm_num) (by norm_num),
   (c1_expected_demand (some 150) 150).2.2.2.2.2 (by norm_num)⟩

/-- C2: for positive inputs, `compute_metrics` satisfies
`area = length * width`, `app = area / players`,
`total_work = sets * work`, `total_rest = sets * rest / 60`,
`total_session = total_work + total_rest`; at `(30, 40, 8, 3, 3, 90)` it
yields `(1200, 150, 9, 4.5, 13.5)`. -/
theorem c2_compute_metrics (l w p s wk r : ℚ)
    (hl : 0 < l) (hw : 0 < w) (hp : 0 < p) (hs : 0 < s) (hwk : 0 < wk) (hr : 0 < r) :
    (compute_metrics l w p s wk r).area = l * w ∧
    (compute_metrics l w p s wk r).app = l * w / p ∧
    (compute_metrics l w p s wk r).total_work = s * wk ∧
    (compute_metrics l w p s wk r).total_rest = s * r / 60 ∧
    (compute_metrics l w p s wk r).total_session = s * wk + s * r / 60 ∧
    compute_metrics 30 40 8 3 3 90 =
      { area := 1200, app := 150, total_work := 9, total_rest := 9/2, total_session := 27/2 } := by
  refine ⟨rfl, ?_, rfl, rfl, rfl, by norm_num [compute_metrics]⟩
  simp [compute_metrics, hp.ne']

/-- Witness for C2: the positivity hypotheses discharged at
`(30, 40, 8, 3, 3, 90)`. -/
theorem c2_compute_metrics_witness :
    (compute_metrics 30 40 8 3 3 90).app = 30 * 40 / 8 :=
  (c2_compute_metrics 30 40 8 3 3 90 (by norm_num) (by norm_num) (by norm_num)
    (by norm_num) (by norm_num) (by norm_num)).2.1

/-- C3: `pct` returns `none` exactly when the denominator is zero, and
otherwise the exact quotient with no clamping; `pct 165 180 = 11/12`
(= 0.91666...). -/
theorem c3_pct (num den : ℚ) :
    (pct num den = none ↔ den = 0) ∧
    (den ≠ 0 → pct num den = some (num / den)) ∧
    pct 165 180 = some (11/12) := by
  refine ⟨?_, ?_, by norm_num [pct]⟩
  · unfold pct
    split_ifs with h <;> simp [h]
  · intro h
    unfold pct
    rw [if_neg h]

/-- Witness for C3: the nonzero-denominator branch discharged at
`(165, 180)` and the zero branch at `(5, 0)`. -/
theorem c3_pct_witness : pct 165 180 = some (165 / 180) ∧ pct 5 0 = none :=
  ⟨(c3_pct 165 180).2.1 (by norm_num), (c3_pct 5 0).1.mpr rfl⟩

/-- C10: with `players = 0`, `compute_metrics` returns `app = 0` for
every value of the other inputs (the embedding is a total function, so
no exception is possible). -/
theorem c10_app_zero_players (l w s wk r : ℚ) :
    (compute_metrics l w 0 s wk r).app = 0 := rfl

/-- C5 counterexample: at pitch 30 × 40 the generated layout contains
no arc drawn from 310 to 50 degrees at all, in particular not the two
penalty arcs the claim asserts. -/
theorem c5_cex : (generate_shapes 30 40).countP is_penalty_arc = 0 ∧
    ¬((generate_shapes 30 40).countP is_penalty_arc = 2) := by decide

/-- C5 (amended): for every pitch size the layout contains no penalty
arcs; the only arcs are the four corner arcs, quarter circles from 0 to
90 degrees of diameter 2 (radius 1) at the four pitch corners. -/
theorem c5_no_penalty_arcs (l w : ℚ) :
    (generate_shapes l w).countP is_penalty_arc = 0 ∧
    (generate_shapes l w).filter is_arc =
      [Shape.arc 0 0 2 2 0 0 90, Shape.arc 0 w 2 2 0 0 90,
       Shape.arc l 0 2 2 0 0 90, Shape.arc l w 2 2 0 0 90] := by
  refine ⟨rfl, ?_⟩
  simp [generate_shapes, is_arc]
  norm_num

/-- C6: the layout uses center-circle radius
`min(9.15, length/3, width/3)`, penalty-box width `min(40.32, 0.9*width)`
and six-yard-box width `min(18.32, 0.6*width)`, both boxes vertically
centered with lower bound `(width - effective)/2`; at length = width = 10
the radius is `10/3 ≤ min(9.15, 10/3)`, not the unclamped `9.15`. -/
theorem c6_clamped_dimensions (l w : ℚ) :
    Shape.circle (l / 2) (w / 2) (min 9.15 (min (l / 3) (w / 3))) ∈ generate_shapes l w ∧
    Shape.rect 0 ((w - min 40.32 (w * 0.9)) / 2) 16.5 (min 40.32 (w * 0.9)) ∈
      generate_shapes l w ∧
    Shape.rect 0 ((w - min 18.32 (w * 0.6)) / 2) 5.5 (min 18.32 (w * 0.6)) ∈
      generate_shapes l w ∧
    cc_r 10 10 = 10 / 3 ∧ cc_r 10 10 ≤ min 9.15 (10 / 3) ∧ cc_r 10 10 < 9.15 := by
  refine ⟨?_, ?_, ?_, ?_, ?_, ?_⟩
  · simp [generate_shapes, cc_r]
  · simp [generate_shapes, pen_y0, effective_pen_width]
  · simp [generate_shapes, goal_y0, effective_goal_width]
  · rw [cc_r]; norm_num [min_def]
  · rw [cc_r]; norm_num [min_def]
  · rw [cc_r]; norm_num [min_def]

/-- C7 counterexample: at pitch 10 × 10 (smaller than regulation) the
layout contains the penalty spot at x = 11, which lies outside the
pitch rectangle `[0, 10] × [0, 10]` — the spot distance 11 is not
clamped. -/
theorem c7_cex : Shape.spot 11 5 ∈ generate_shapes 10 10 ∧
    shape_in_bounds 10 10 (Shape.spot 11 5) = false := by
  constructor
  · simp [generate_shapes]
    norm_num
  · simp only [shape_in_bounds, decide_eq_false_iff_not]
    norm_num

/-- C7 (amended): only the center-circle radius and the box widths are
clamped; the penalty depth 16.5 and the penalty-spot distance 11 are
used unclamped in the layout, so the penalty boxes leave the pitch
rectangle whenever `length < 16.5` and the penalty spots whenever
`length < 11`. -/
theorem c7_unclamped_depth_and_spot (l w : ℚ) :
    Shape.rect 0 (pen_y0 w) 16.5 (effective_pen_width w) ∈ generate_shapes l w ∧
    Shape.rect (l - 16.5) (pen_y0 w) 16.5 (effective_pen_width w) ∈ generate_shapes l w ∧
    Shape.spot 11 (w / 2) ∈ generate_shapes l w ∧
    Shape.spot (l - 11) (w / 2) ∈ generate_shapes l w ∧
    (l < 16.5 →
      shape_in_bounds l w (Shape.rect 0 (pen_y0 w) 16.5 (effective_pen_width w)) = false) ∧
    (l < 11 → shape_in_bounds l w (Shape.spot 11 (w / 2)) = false) := by
  refine ⟨?_, ?_, ?_, ?_, ?_, ?_⟩
  · simp [generate_shapes]
  · simp [generate_shapes]
  · simp [generate_shapes]
  · simp [generate_shapes]
  · intro h
    simp only [shape_in_bounds, decide_eq_false_iff_not]
    intro hc
    rcases hc with ⟨h1, h2, h3⟩
    linarith
  · intro h
    simp only [shape_in_bounds, decide_eq_false_iff_not]
    intro hc
    rcases hc with ⟨h1, h2, h3⟩
    linarith

/-- Witness for C7 (amended): the two overflow implications discharged
at the concrete pitch 10 × 10. -/
theorem c7_unclamped_depth_and_spot_witness :
    shape_in_bounds 10 10 (Shape.rect 0 (pen_y0 10) 16.5 (effective_pen_width 10)) = false ∧
    shape_in_bounds 10 10 (Shape.spot 11 (10 / 2)) = false :=
  ⟨(c7_unclamped_depth_and_spot 10 10).2.2.2.2.1 (by norm_num),
   (c7_unclamped_depth_and_spot 10 10).2.2.2.2.2 (by norm_num)⟩

theorem linspace_length (a b : ℚ) (n : ℕ) : (linspace a b n).length = n := by
  rw [linspace]
  split_ifs with h0 h1
  · simp [h0]
  · simp [h1]
  · rw [List.length_map, List.length_range]

theorem per_row_ge_two (n : ℕ) : 2 ≤ per_row n :=
  le_min (by norm_num) (le_max_left 2 _)

theorem per_row_le_six (n : ℕ) : per_row n ≤ 6 := min_le_left 6 _

theorem per_row_pos (n : ℕ) : 0 < per_row n :=
  lt_of_lt_of_le (by norm_num) (per_row_ge_two n)

theorem le_per_row_mul_rows (n : ℕ) : n ≤ per_row n * rows n := by
  have hp : 0 < per_row n := per_row_pos n
  have h1 := Nat.div_add_mod (n + per_row n - 1) (per_row n)
  have h2 : (n + per_row n - 1) % per_row n < per_row n := Nat.mod_lt _ hp
  rw [rows]
  generalize ht : per_row n * ((n + per_row n - 1) / per_row n) = t at h1 ⊢
  omega

theorem length_cross (xs ys : List ℚ) :
    (ys.flatMap fun y => xs.map fun x => (x, y)).length = ys.length * xs.length := by
  induction ys with
  | nil => simp
  | cons y ys ih => simp [ih, Nat.succ_mul, Nat.add_comm]

theorem cross_getElem (xs ys : List ℚ) (i : ℕ) (hi : i < xs.length * ys.length) :
    (ys.flatMap fun y => xs.map fun x => (x, y))[i]? =
      some (xs.getD (i % xs.length) 0, ys.getD (i / xs.length) 0) := by
  induction ys generalizing i with
  | nil => simp at hi
  | cons y ys ih =>
    rw [List.flatMap_cons]
    by_cases h : i < xs.length
    · rw [List.getElem?_append_left (by simpa using h)]
      simp [Nat.mod_eq_of_lt h, Nat.div_eq_of_lt h, List.getElem?_eq_getElem h,
        List.getD_eq_getElem?_getD]
    · push_neg at h
      have hxs : 0 < xs.length := by
        rcases Nat.eq_zero_or_pos xs.length with h0 | h0
        · rw [h0] at hi; simp at hi
        · exact h0
      rw [List.getElem?_append_right (by simpa using h)]
      have hi2 : i - xs.length < xs.length * ys.length := by
        have hlen : xs.length * (y :: ys).length = xs.length * ys.length + xs.length := by
          simp [Nat.mul_succ]
        rw [hlen] at hi
        generalize xs.length * ys.length = t at hi ⊢
        omega
      rw [List.length_map, ih (i - xs.length) hi2]
      obtain ⟨j, rfl⟩ := Nat.exists_eq_add_of_le h
      rw [Nat.add_sub_cancel_left, Nat.add_mod_left, Nat.add_comm xs.length j,
        Nat.add_div_right _ hxs]
      simp

theorem gen_player_pts_length (l w : ℚ) (p : ℤ) (h : 1 ≤ p) :
    (gen_player_pts l w p).length = p.toNat := by
  rw [gen_player_pts, if_pos h]
  rw [List.length_take, length_cross, linspace_length, linspace_length]
  exact Nat.min_eq_left (by rw [Nat.mul_comm]; exact le_per_row_mul_rows _)

theorem gen_player_pts_eq_grid (l w : ℚ) (p : ℤ) (h : 1 ≤ p) :
    gen_player_pts l w p = (List.range p.toNat).map (fun i =>
      ((linspace (l * 0.1) (l * 0.9) (per_row p.toNat)).getD (i % per_row p.toNat) 0,
       (linspace (w * 0.2) (w * 0.8) (rows p.toNat)).getD (i / per_row p.toNat) 0)) := by
  apply List.ext_getElem?
  intro i
  by_cases hi : i < p.toNat
  · rw [gen_player_pts, if_pos h]
    rw [List.getElem?_take_of_lt hi]
    have hcross : i <
        (linspace (l * 0.1) (l * 0.9) (per_row p.toNat)).length *
          (linspace (w * 0.2) (w * 0.8) (rows p.toNat)).length := by
      rw [linspace_length, linspace_length]
      exact lt_of_lt_of_le hi (le_per_row_mul_rows _)
    rw [cross_getElem _ _ i hcross]
    rw [List.getElem?_map, List.getElem?_range hi]
    simp [linspace_length]
  · push_neg at hi
    rw [List.getElem?_eq_none, List.getElem?_eq_none]
    · rw [List.length_map, List.length_range]; exact hi
    · rw [gen_player_pts_length l w p h]; exact hi

theorem nat_ceil_div (a b : ℕ) (hb : 0 < b) :
    ⌈(a : ℚ) / (b : ℚ)⌉₊ = (a + b - 1) / b := by
  rcases Nat.eq_zero_or_pos a with ha | ha
  · subst ha
    rw [Nat.cast_zero, zero_div, Nat.ceil_zero, Nat.zero_add,
      Nat.div_eq_of_lt (by omega)]
  · have hbQ : (0 : ℚ) < (b : ℚ) := by exact_mod_cast hb
    have hq1 : 1 ≤ (a + b - 1) / b := (Nat.one_le_div_iff hb).mpr (by omega)
    rw [Nat.ceil_eq_iff (Nat.one_le_iff_ne_zero.mp hq1)]
    constructor
    · rw [lt_div_iff₀ hbQ]
      have key : ((a + b - 1) / b - 1) * b < a := by
        have h1 : (a + b - 1) / b * b ≤ a + b - 1 := Nat.div_mul_le_self _ _
        set q := (a + b - 1) / b with hq
        have h2 : (q - 1) * b = q * b - b := by
          cases q with
          | zero => simp
          | succ q0 => rw [Nat.succ_sub_one, Nat.succ_mul, Nat.add_sub_cancel]
        rw [h2]
        generalize q * b = t at h1 ⊢
        omega
      exact_mod_cast key
    · rw [div_le_iff₀ hbQ]
      have key : a ≤ (a + b - 1) / b * b := by
        have h2 : a + b - 1 < ((a + b - 1) / b + 1) * b :=
          (Nat.div_lt_iff_lt_mul hb).mp (Nat.lt_succ_self _)
        set q := (a + b - 1) / b with hq
        rw [Nat.succ_mul] at h2
        generalize q * b = t at h2 ⊢
        omega
      exact_mod_cast key

/-- C8: for N >= 2 the grid uses `per_row = clamp(ceil(N/2), 2, 6)` (as
`min 6 (max 2 ...)` with the real ceiling of N/2) and
`rows = ceil(N / per_row)`; the generated points are exactly the
row-major cross product of `per_row` x-values evenly spaced over
`[0.1*length, 0.9*length]` by `rows` y-values evenly spaced over
`[0.2*width, 0.8*width]`, truncated to the first N points (point i sits
at column `i % per_row`, row `i / per_row`); for N = 8: per_row = 4,
rows = 2, 8 points. -/
theorem c8_grid_layout (l w : ℚ) (players : ℤ) (hp : 2 ≤ players) :
    per_row players.toNat = min 6 (max 2 ⌈(players.toNat : ℚ) / 2⌉₊) ∧
    2 ≤ per_row players.toNat ∧ per_row players.toNat ≤ 6 ∧
    rows players.toNat = ⌈(players.toNat : ℚ) / (per_row players.toNat : ℚ)⌉₊ ∧
    (gen_player_pts l w players).length = players.toNat ∧
    gen_player_pts l w players = (List.range players.toNat).map (fun i =>
      ((linspace (l * 0.1) (l * 0.9) (per_row players.toNat)).getD
         (i % per_row players.toNat) 0,
       (linspace (w * 0.2) (w * 0.8) (rows players.toNat)).getD
         (i / per_row players.toNat) 0)) ∧
    per_row 8 = 4 ∧ rows 8 = 2 ∧ (gen_player_pts 30 40 8).length = 8 := by
  have h1 : 1 ≤ players := le_trans (by norm_num) hp
  have hc2 : ((2 : ℕ) : ℚ) = 2 := by norm_num
  refine ⟨?_, per_row_ge_two _, per_row_le_six _, ?_,
    gen_player_pts_length l w players h1, gen_player_pts_eq_grid l w players h1,
    by decide, by decide, ?_⟩
  · rw [← hc2, nat_ceil_div _ 2 (by norm_num)]
    rfl
  · rw [nat_ceil_div _ _ (per_row_pos _)]
    rfl
  · rw [gen_player_pts_length 30 40 8 (by norm_num)]
    rfl

/-- Witness for C8: the player-count hypothesis discharged at N = 8 on
a 30 x 40 pitch. -/
theorem c8_grid_layout_witness : (gen_player_pts 30 40 8).length = Int.toNat 8 :=
  (c8_grid_layout 30 40 8 (by norm_num)).2.2.2.2.1

/-- C4 (amended): for N >= 2 the points are split at `N // 2`, first
half Team A and remainder Team B, so Team B — not Team A — gets the
extra player when N is odd; every point keeps its 1-based generation
index as label regardless of team; for N = 8 the first 4 points are
Team A, the last 4 Team B, labels 1..8 in generation order. -/
theorem c4_team_split (l w : ℚ) (players : ℤ) (hp : 2 ≤ players) :
    team_a l w players ++ team_b l w players = gen_player_pts l w players ∧
    (team_a l w players).length = players.toNat / 2 ∧
    (team_b l w players).length = players.toNat - players.toNat / 2 ∧
    (players % 2 = 1 → (team_b l w players).length = (team_a l w players).length + 1) ∧
    (player_labels l w players).map Prod.fst = List.range' 1 players.toNat ∧
    (player_labels l w players).map Prod.snd = gen_player_pts l w players ∧
    team_a 30 40 8 = [(3, 8), (11, 8), (19, 8), (27, 8)] ∧
    team_b 30 40 8 = [(3, 32), (11, 32), (19, 32), (27, 32)] := by
  have h1 : 1 ≤ players := le_trans (by norm_num) hp
  have hlen := gen_player_pts_length l w players h1
  have hpr : per_row (Int.toNat 8) = 4 := by decide
  have hrw : rows (Int.toNat 8) = 2 := by decide
  refine ⟨List.take_append_drop _ _, ?_, ?_, ?_, ?_, ?_, ?_, ?_⟩
  · rw [team_a, List.length_take, hlen]
    exact Nat.min_eq_left (Nat.div_le_self _ _)
  · rw [team_b, List.length_drop, hlen]
  · intro hodd
    rw [team_a, team_b, List.length_take, List.length_drop, hlen,
      Nat.min_eq_left (Nat.div_le_self _ _)]
    omega
  · rw [player_labels, List.enumFrom_map_fst, hlen]
  · rw [player_labels, List.enumFrom_map_snd]
  · norm_num [team_a, gen_player_pts, hpr, hrw, linspace, List.range_succ]
    decide
  · norm_num [team_b, gen_player_pts, hpr, hrw, linspace, List.range_succ]
    decide

/-- Witness for C4 (amended): at N = 5, Team A has 2 markers and
Team B has 3. -/
theorem c4_team_split_witness :
    (team_b 30 40 5).length = (team_a 30 40 5).length + 1 :=
  (c4_team_split 30 40 5 (by norm_num)).2.2.2.1 (by norm_num)

/-- C4 counterexample: at N = 3 (odd) Team A has 1 marker and Team B
has 2, refuting the claim that Team A gets the extra player. -/
theorem c4_cex : (team_a 30 40 3).length = 1 ∧ (team_b 30 40 3).length = 2 ∧
    ¬((team_a 30 40 3).length = 2) := by decide

/-- C9 (amended): for every player count below 1 the generator emits no
markers (the embedding is total, so no error is possible); but for
N = 1 — which the claim includes in "N < 2" — one marker is generated,
because the source guard is `n_players >= 1`. -/
theorem c9_small_counts (l w : ℚ) (players : ℤ) (hp : players < 1) :
    gen_player_pts l w players = [] ∧ (gen_player_pts l w 1).length = 1 := by
  constructor
  · rw [gen_player_pts, if_neg (by omega)]
  · rw [gen_player_pts_length l w 1 le_rfl]
    rfl

/-- Witness for C9 (amended): the guard hypothesis discharged at
N = 0. -/
theorem c9_small_counts_witness :
    gen_player_pts 30 40 0 = [] ∧ (gen_player_pts 30 40 1).length = 1 :=
  c9_small_counts 30 40 0 (by norm_num)

/-- C9 counterexample: at N = 1 < 2 the generator emits one marker,
not an empty list. -/
theorem c9_cex : gen_player_pts 30 40 1 ≠ [] ∧ (gen_player_pts 30 40 1).length = 1 := by
  have hl : (gen_player_pts 30 40 1).length = 1 := by
    rw [gen_player_pts_length 30 40 1 le_rfl]
    rfl
  exact ⟨List.ne_nil_of_length_pos (by rw [hl]; norm_num), hl⟩

end SSG
